import Mathlib

/-!
Shallow embedding of the Streamlit HITL verification workflow in src/app.py.

The app is a single script driving a per-session state machine with steps
input, review and verified, held in st.session_state, plus an append-only
CSV log file shared by all sessions.  External collaborators (the Tavily
search client and the Groq chat model) are modelled as function parameters,
so every theorem quantifying over them covers all collaborator behaviours.

The source file contains an unresolved merge conflict in the verified step:
the HEAD variant appends a CSV row on every render of the verified step and
displays a JSON payload including verification_mode; the alternate variant
only displays a JSON payload without verification_mode and never writes the
CSV file.  Both variants are embedded (renderVerifiedHead, renderVerifiedAlt).
-/

namespace HITL

/-- One Tavily search result, as used by the app: only url and content are read. -/
structure ResearchData where
  url : String
  content : String
deriving DecidableEq

/-- The three values taken by st.session_state.step. -/
inductive Step where
  | input
  | review
  | verified
deriving DecidableEq

/-- The six session-state fields initialised by the defaults dict in app.py. -/
structure SessionState where
  step : Step
  topic : String
  research_data : Option ResearchData
  ai_summary : String
  verification_status : Option String
  verification_mode : String
deriving DecidableEq

/-- The defaults dict of app.py. -/
def defaults : SessionState :=
  { step := Step.input
    topic := ""
    research_data := none
    ai_summary := ""
    verification_status := none
    verification_mode := "Source-Grounded" }

/-- Outcome of one press of the Start Agent button: success, the empty-topic
warning, or a caught exception displayed via st.error. -/
inductive StartOutcome where
  | ok
  | warning (msg : String)
  | error (msg : String)
deriving DecidableEq

/-- The fixed prompt template built in the input step from the source text. -/
def mkPrompt (source_text : String) : String :=
  "\nYou are a rigorous research assistant.\nBased ONLY on the following text, extract the key factual claim.\nDo not add outside knowledge.\nLimit to 2 sentences.\n\nText:\n" ++ source_text ++ "\n"

/-- The Start Agent button handler of the input step (app.py lines 104-138).

Mutations happen in source order: after the search call, topic is assigned,
then research_data is assigned from results[0] (raising IndexError, displayed
as "Error: list index out of range", when the result list is empty), then the
model is invoked (any raised error e is displayed as "Error: " ++ e); only on
success are ai_summary and step assigned.  Mutations made before an exception
persist, exactly as st.session_state mutations do in the script. -/
def startAgent (s : SessionState) (topic_input : String)
    (search : String → List ResearchData)
    (invoke : String → Except String String) : SessionState × StartOutcome :=
  if topic_input = "" then
    (s, StartOutcome.warning "Please enter a topic.")
  else
    match search topic_input with
    | [] =>
      ({ s with topic := topic_input }, StartOutcome.error "Error: list index out of range")
    | r :: _ =>
      let s1 := { s with topic := topic_input, research_data := some r }
      match invoke (mkPrompt r.content) with
      | Except.error e => (s1, StartOutcome.error ("Error: " ++ e))
      | Except.ok content =>
        ({ s1 with ai_summary := content, step := Step.review }, StartOutcome.ok)

/-- What the review step shows (app.py lines 148-169): in Blind mode only the
AI claim and a fixed caption; otherwise the claim, the source URL line and the
raw source content.  Source-Grounded rendering dereferences research_data,
so it is undefined (a Python TypeError) when research_data is None. -/
inductive DisplayPayload where
  | blind (claim caption : String)
  | sourceGrounded (claim sourceUrlLine rawContent : String)
deriving DecidableEq

/-- The review-step rendering (app.py lines 148-169), a pure function of state. -/
def renderReview (s : SessionState) : Option DisplayPayload :=
  if s.verification_mode = "Blind" then
    some (DisplayPayload.blind s.ai_summary "Blind Mode: No source evidence shown.")
  else
    match s.research_data with
    | none => none
    | some rd =>
      some (DisplayPayload.sourceGrounded s.ai_summary ("Source URL: " ++ rd.url) rd.content)

/-- The Approve button handler (app.py lines 176-179). -/
def approve (s : SessionState) : SessionState :=
  { s with verification_status := some "Verified Accurate", step := Step.verified }

/-- The Reject button handler (app.py lines 181-184). -/
def reject (s : SessionState) : SessionState :=
  { s with verification_status := some "Hallucination Detected", step := Step.verified }

/-- The Restart button handler of the review step (app.py lines 186-188):
only the step field is assigned. -/
def restartReview (s : SessionState) : SessionState :=
  { s with step := Step.input }

/-- The Test Another Topic button handler of the verified step
(app.py lines 247-249): only the step field is assigned. -/
def newTopic (s : SessionState) : SessionState :=
  { s with step := Step.input }

/-- The radio widget of the input step (app.py lines 93-97) assigns
verification_mode on every render of the input step. -/
def setMode (s : SessionState) (m : String) : SessionState :=
  { s with verification_mode := m }

/-- csv.writer renders the Python value None as an empty field. -/
def csvCell : Option String → String
  | none => ""
  | some v => v

/-- st.json renders the Python value None as null. -/
def jsonValue : Option String → String
  | none => "null"
  | some v => v

/-- The six-column CSV row written by the HEAD variant of the verified step
(app.py lines 205-214); ts stands for datetime.now().isoformat(). -/
def headCsvRow (ts : String) (s : SessionState) (rd : ResearchData) : List String :=
  [ts, s.topic, s.ai_summary, rd.url, csvCell s.verification_status, s.verification_mode]

/-- The JSON payload displayed by the HEAD variant (app.py lines 216-222). -/
def headJson (s : SessionState) (rd : ResearchData) : List (String × String) :=
  [("topic", s.topic), ("agent_claim", s.ai_summary), ("source_url", rd.url),
   ("human_verdict", jsonValue s.verification_status),
   ("verification_mode", s.verification_mode)]

/-- The JSON payload displayed by the alternate merge variant
(app.py lines 237-243): no verification_mode key. -/
def altJson (s : SessionState) (rd : ResearchData) : List (String × String) :=
  [("topic", s.topic), ("agent_claim", s.ai_summary), ("source_url", rd.url),
   ("human_verdict", jsonValue s.verification_status)]

/-- One render of the verified step, HEAD variant (app.py lines 196-224):
unconditionally appends one row to the CSV log, then displays the JSON
payload.  Both the CSV write and the JSON display dereference research_data,
so the render is undefined when research_data is None. -/
def renderVerifiedHead (ts : String) (s : SessionState) (log : List (List String)) :
    Option (List (List String) × List (String × String)) :=
  match s.research_data with
  | none => none
  | some rd => some (log ++ [headCsvRow ts s rd], headJson s rd)

/-- One render of the verified step, alternate merge variant
(app.py lines 227-246): displays the JSON payload only, never writes the CSV. -/
def renderVerifiedAlt (s : SessionState) (log : List (List String)) :
    Option (List (List String) × List (String × String)) :=
  match s.research_data with
  | none => none
  | some rd => some (log, altJson s rd)

/-- Two consecutive renders of the verified step (HEAD variant) on an
unchanged session state, returning the resulting CSV log. -/
def rendersTwice (ts1 ts2 : String) (s : SessionState) (log : List (List String)) :
    Option (List (List String)) :=
  match renderVerifiedHead ts1 s log with
  | none => none
  | some (log1, _) => (renderVerifiedHead ts2 s log1).map Prod.fst

/-- Session state together with the shared CSV log. -/
structure AppState where
  session : SessionState
  log : List (List String)
deriving DecidableEq

/-- The Restart button as a transition on session-plus-log: the handler
contains no CSV write. -/
def restartApp (a : AppState) : AppState :=
  { a with session := restartReview a.session }

/-- The Test Another Topic button as a transition on session-plus-log: the
handler contains no CSV write. -/
def newTopicApp (a : AppState) : AppState :=
  { a with session := newTopic a.session }

/-- The startup credentials guard (app.py lines 16-21): os.getenv returns
None when the variable is absent, and Python treats both None and the empty
string as falsy. -/
def falsy : Option String → Bool
  | none => true
  | some v => v = ""

/-- The st.error diagnostic printed before st.stop. -/
def keysMissingMsg : String :=
  "🚨 API Keys not found! Add GROQ_API_KEY and TAVILY_API_KEY to .env"

/-- Script startup (app.py lines 16-21 and 71-82): if either key is falsy the
script halts at st.stop with the diagnostic, before the session-state
defaults are ever installed; otherwise the session starts from defaults. -/
def startup (groqKey tavilyKey : Option String) : Except String SessionState :=
  if falsy groqKey || falsy tavilyKey then Except.error keysMissingMsg
  else Except.ok defaults

/-- The session states reachable through the widgets of the script: the
initial defaults, the mode radio on the input step, the Start Agent button
(over arbitrary collaborator behaviour), and the four buttons of the review
and verified steps.  Each widget exists only on the render of its step. -/
inductive Reachable : SessionState → Prop where
  | init : Reachable defaults
  | mode {s : SessionState} {m : String} : Reachable s → s.step = Step.input →
      m = "Blind" ∨ m = "Source-Grounded" → Reachable (setMode s m)
  | start {s : SessionState} (t : String) (search : String → List ResearchData)
      (invoke : String → Except String String) :
      Reachable s → s.step = Step.input → Reachable (startAgent s t search invoke).1
  | approveEv {s : SessionState} : Reachable s → s.step = Step.review → Reachable (approve s)
  | rejectEv {s : SessionState} : Reachable s → s.step = Step.review → Reachable (reject s)
  | restartEv {s : SessionState} : Reachable s → s.step = Step.review → Reachable (restartReview s)
  | newTopicEv {s : SessionState} : Reachable s → s.step = Step.verified → Reachable (newTopic s)

/-- A search collaborator returning one fixed result, for concrete runs. -/
def oneResult : String → List ResearchData :=
  fun _ => [⟨"http://a", "Y is true."⟩]

/-- A search collaborator returning no results. -/
def emptySearch : String → List ResearchData :=
  fun _ => []

/-- A summarization collaborator returning a fixed non-empty claim. -/
def okSummary : String → Except String String :=
  fun _ => Except.ok "Y is true."

/-- A summarization collaborator succeeding with empty content. -/
def emptySummary : String → Except String String :=
  fun _ => Except.ok ""

/-- A concrete review-step state, as produced by a successful Start Agent run. -/
def cexReviewState : SessionState :=
  { step := Step.review
    topic := "X"
    research_data := some ⟨"http://a", "Y is true."⟩
    ai_summary := "Y is true."
    verification_status := none
    verification_mode := "Source-Grounded" }

/-- A concrete verified-step state, as produced by Approve from cexReviewState
after switching to Blind mode. -/
def cexVerifiedState : SessionState :=
  { step := Step.verified
    topic := "X"
    research_data := some ⟨"http://a", "Y is true."⟩
    ai_summary := "Y is true."
    verification_status := some "Verified Accurate"
    verification_mode := "Blind" }

/-- The state reached by Input, Start Agent, Approve, Test Another Topic. -/
def backToInputState : SessionState :=
  newTopic (approve (startAgent defaults "X" oneResult okSummary).1)

example : (startAgent defaults "X" oneResult okSummary).1.step = Step.review := by decide

example : backToInputState.step = Step.input ∧
    backToInputState.verification_status = some "Verified Accurate" := by decide

/-- Whatever the collaborators do, one Start Agent run either keeps the step
or moves it to review; it never produces the verified step. -/
theorem startAgent_step (s : SessionState) (t : String)
    (search : String → List ResearchData) (invoke : String → Except String String) :
    (startAgent s t search invoke).1.step = s.step ∨
      (startAgent s t search invoke).1.step = Step.review := by
  rcases Decidable.em (t = "") with ht | ht
  · simp [startAgent, ht]
  · rcases hs : search t with _ | ⟨r, rest⟩
    · simp [startAgent, ht, hs]
    · rcases hi : invoke (mkPrompt r.content) with e | c
      · simp [startAgent, ht, hs, hi]
      · simp [startAgent, ht, hs, hi]

/-- A Start Agent run never assigns verification_status. -/
theorem startAgent_status (s : SessionState) (t : String)
    (search : String → List ResearchData) (invoke : String → Except String String) :
    (startAgent s t search invoke).1.verification_status = s.verification_status := by
  rcases Decidable.em (t = "") with ht | ht
  · simp [startAgent, ht]
  · rcases hs : search t with _ | ⟨r, rest⟩
    · simp [startAgent, ht, hs]
    · rcases hi : invoke (mkPrompt r.content) with e | c
      · simp [startAgent, ht, hs, hi]
      · simp [startAgent, ht, hs, hi]

/-- Every successful render of the verified step (HEAD variant) appends
exactly one row at the end of the CSV log, leaving prior rows intact. -/
theorem renderVerifiedHead_append (ts : String) (s : SessionState)
    (log log' : List (List String)) (p : List (String × String))
    (h : renderVerifiedHead ts s log = some (log', p)) :
    log'.length = log.length + 1 ∧ log'.take log.length = log := by
  unfold renderVerifiedHead at h
  rcases hs : s.research_data with _ | rd
  · rw [hs] at h; cases h
  · rw [hs] at h
    simp only [Option.some.injEq, Prod.mk.injEq] at h
    obtain ⟨h1, h2⟩ := h
    subst h1
    constructor
    · simp
    · exact List.take_left log [headCsvRow ts s rd]

/-- C1, counterexample: there is no per-cycle already-logged flag, so two
renders of the verified step for the same cycle append two CSV records to an
initially empty log, refuting the appends-at-most-one-record part of the
claim. -/
theorem C1_counterexample :
    (rendersTwice "t1" "t2" cexVerifiedState []).map List.length = some 2 ∧ ¬ (2 ≤ 1) := by
  decide

/-- C1, amended: the log write is not idempotent per cycle; instead, every
render of the verified step (HEAD variant) appends exactly one record to the
CSV store, so a completed cycle appends one record per render of the
verified step. -/
theorem C1_amended (ts : String) (s : SessionState)
    (log log' : List (List String)) (p : List (String × String))
    (h : renderVerifiedHead ts s log = some (log', p)) :
    log'.length = log.length + 1 ∧ log'.take log.length = log :=
  renderVerifiedHead_append ts s log log' p h

/-- C1, witness for the amended theorem at a concrete verified state. -/
theorem C1_amended_witness :
    ([headCsvRow "t1" cexVerifiedState ⟨"http://a", "Y is true."⟩] : List (List String)).length =
      ([] : List (List String)).length + 1 :=
  (C1_amended "t1" cexVerifiedState []
    [headCsvRow "t1" cexVerifiedState ⟨"http://a", "Y is true."⟩]
    (headJson cexVerifiedState ⟨"http://a", "Y is true."⟩) rfl).1

/-- C2, counterexample: with a zero-result search, the handler assigns topic
before indexing results[0], so workflow state IS mutated even though the step
stays input and the error is surfaced. -/
theorem C2_counterexample :
    (startAgent defaults "X" emptySearch okSummary).1.topic = "X" ∧
    defaults.topic = "" ∧
    (startAgent defaults "X" emptySearch okSummary).1 ≠ defaults ∧
    (startAgent defaults "X" emptySearch okSummary).2 =
      StartOutcome.error "Error: list index out of range" ∧
    (startAgent defaults "X" emptySearch okSummary).1.step = Step.input := by
  decide

/-- C2, amended: on a zero-result search or a collaborator-raised error the
step is unchanged, the error is surfaced and ai_summary and
verification_status are untouched, but topic is set to the entered topic, and
on a collaborator error research_data is set to the top search result. -/
theorem C2_amended (s : SessionState) (t : String)
    (search : String → List ResearchData) (invoke : String → Except String String)
    (msg : String) (h : (startAgent s t search invoke).2 = StartOutcome.error msg) :
    (startAgent s t search invoke).1.step = s.step ∧
    (startAgent s t search invoke).1.topic = t ∧
    (startAgent s t search invoke).1.ai_summary = s.ai_summary ∧
    (startAgent s t search invoke).1.verification_status = s.verification_status ∧
    (search t = [] → (startAgent s t search invoke).1.research_data = s.research_data) ∧
    (∀ r rest, search t = r :: rest →
      (startAgent s t search invoke).1.research_data = some r) := by
  rcases Decidable.em (t = "") with ht | ht
  · exfalso
    simp [startAgent, ht] at h
  · rcases hs : search t with _ | ⟨r, rest⟩
    · refine ⟨?_, ?_, ?_, ?_, ?_, ?_⟩ <;> simp [startAgent, ht, hs]
    · rcases hi : invoke (mkPrompt r.content) with e | c
      · refine ⟨?_, ?_, ?_, ?_, ?_, ?_⟩ <;> simp [startAgent, ht, hs, hi]
      · exfalso
        simp [startAgent, ht, hs, hi] at h

/-- C2, witness for the amended theorem: concrete zero-result run. -/
theorem C2_amended_witness :
    (startAgent defaults "X" emptySearch okSummary).1.step = defaults.step ∧
    (startAgent defaults "X" emptySearch okSummary).1.topic = "X" :=
  ⟨(C2_amended defaults "X" emptySearch okSummary "Error: list index out of range"
      (by decide)).1,
   (C2_amended defaults "X" emptySearch okSummary "Error: list index out of range"
      (by decide)).2.1⟩

/-- C3, counterexample: the Restart button sets the step back to input but
clears nothing; at a concrete review state the topic, research data and
summary all survive, refuting the clearing part of the claim. -/
theorem C3_counterexample :
    (restartReview cexReviewState).step = Step.input ∧
    ¬ ((restartReview cexReviewState).topic = "" ∧
       (restartReview cexReviewState).research_data = none ∧
       (restartReview cexReviewState).ai_summary = "" ∧
       (restartReview cexReviewState).verification_status = none) := by
  decide

/-- C3, amended: the RestartFromReview event sets the step back to Input and
appends no log record, but it does not clear topic, researchData, aiSummary
or the verdict: every other field of the state, and the CSV log, are
unchanged. -/
theorem C3_amended (a : AppState) :
    (restartApp a).session.step = Step.input ∧
    (restartApp a).session.topic = a.session.topic ∧
    (restartApp a).session.research_data = a.session.research_data ∧
    (restartApp a).session.ai_summary = a.session.ai_summary ∧
    (restartApp a).session.verification_status = a.session.verification_status ∧
    (restartApp a).session.verification_mode = a.session.verification_mode ∧
    (restartApp a).log = a.log :=
  ⟨rfl, rfl, rfl, rfl, rfl, rfl, rfl⟩

/-- C4, counterexample: the Test Another Topic button returns to the input
step but clears nothing; at a concrete verified state the topic, research
data, summary and verdict all survive, refuting the clearing part of the
claim. -/
theorem C4_counterexample :
    (newTopicApp ⟨cexVerifiedState, []⟩).session.step = Step.input ∧
    ¬ ((newTopicApp ⟨cexVerifiedState, []⟩).session.topic = "" ∧
       (newTopicApp ⟨cexVerifiedState, []⟩).session.research_data = none ∧
       (newTopicApp ⟨cexVerifiedState, []⟩).session.ai_summary = "" ∧
       (newTopicApp ⟨cexVerifiedState, []⟩).session.verification_status = none) := by
  decide

/-- C4, amended: the NewTopic event returns the session to the Input step but
clears none of topic, researchData, aiSummary or the verdict, and the button
handler itself appends nothing; the log record for the cycle is instead
appended by each render of the Verified step, one record per render rather
than exactly once per cycle. -/
theorem C4_amended (a : AppState) (ts : String) (s : SessionState)
    (log log' : List (List String)) (p : List (String × String))
    (h : renderVerifiedHead ts s log = some (log', p)) :
    (newTopicApp a).session.step = Step.input ∧
    (newTopicApp a).session.topic = a.session.topic ∧
    (newTopicApp a).session.research_data = a.session.research_data ∧
    (newTopicApp a).session.ai_summary = a.session.ai_summary ∧
    (newTopicApp a).session.verification_status = a.session.verification_status ∧
    (newTopicApp a).log = a.log ∧
    log'.length = log.length + 1 :=
  ⟨rfl, rfl, rfl, rfl, rfl, rfl, (renderVerifiedHead_append ts s log log' p h).1⟩

/-- C4, witness for the amended theorem at a concrete verified state. -/
theorem C4_amended_witness :
    (newTopicApp ⟨cexVerifiedState, []⟩).session.step = Step.input :=
  (C4_amended ⟨cexVerifiedState, []⟩ "t1" cexVerifiedState []
    [headCsvRow "t1" cexVerifiedState ⟨"http://a", "Y is true."⟩]
    (headJson cexVerifiedState ⟨"http://a", "Y is true."⟩) rfl).1

/-- C5, counterexample: the state reached by Input, Start Agent, Approve,
Test Another Topic is back on the Input step yet still carries the verdict
Verified Accurate, refuting the claimed iff between a non-null
verificationStatus and the Verified step. -/
theorem C5_counterexample :
    Reachable backToInputState ∧
    ¬ ((backToInputState.verification_status ≠ none) ↔
        backToInputState.step = Step.verified) := by
  constructor
  · exact Reachable.newTopicEv
      (Reachable.approveEv
        (Reachable.start "X" oneResult okSummary Reachable.init (by decide))
        (by decide))
      (by decide)
  · decide

/-- C5, amended: only one direction of the claimed iff holds on reachable
states: whenever the step is Verified the verificationStatus is non-null.
The converse fails because NewTopic returns to Input without clearing the
verdict. -/
theorem C5_amended {s : SessionState} (h : Reachable s) :
    s.step = Step.verified → s.verification_status ≠ none := by
  induction h with
  | init =>
    intro hv
    exact absurd hv (by decide)
  | mode hr hstep hm ih =>
    intro hv
    exact absurd (hstep.symm.trans hv) (by decide)
  | start t search invoke hr hstep ih =>
    intro hv
    rcases startAgent_step _ t search invoke with h1 | h1
    · rw [h1, hstep] at hv
      exact absurd hv (by decide)
    · rw [h1] at hv
      exact absurd hv (by decide)
  | approveEv hr hstep ih =>
    intro hv
    simp [approve]
  | rejectEv hr hstep ih =>
    intro hv
    simp [reject]
  | restartEv hr hstep ih =>
    intro hv
    exact absurd hv (by simp [restartReview])
  | newTopicEv hr hstep ih =>
    intro hv
    exact absurd hv (by simp [newTopic])

/-- C5, witness for the amended theorem: a concrete reachable verified state
has a non-null verdict. -/
theorem C5_amended_witness :
    (approve (startAgent defaults "X" oneResult okSummary).1).verification_status ≠ none :=
  C5_amended
    (Reachable.approveEv
      (Reachable.start "X" oneResult okSummary Reachable.init (by decide))
      (by decide))
    (by decide)

/-- C6: the review render is a pure function of state; in Blind mode the
payload is the AI claim plus a fixed caption and is independent of
researchData (the same payload results for every researchData value), while
in Source-Grounded mode the payload carries researchData.url and
researchData.content verbatim as stored in the state. -/
theorem C6_review_render :
    (∀ (s : SessionState) (rd : Option ResearchData), s.verification_mode = "Blind" →
      renderReview { s with research_data := rd } =
        some (DisplayPayload.blind s.ai_summary "Blind Mode: No source evidence shown.")) ∧
    (∀ (s : SessionState) (rd : ResearchData), s.verification_mode ≠ "Blind" →
      s.research_data = some rd →
      renderReview s =
        some (DisplayPayload.sourceGrounded s.ai_summary
          ("Source URL: " ++ rd.url) rd.content)) := by
  constructor
  · intro s rd hm
    simp [renderReview, hm]
  · intro s rd hm hd
    simp [renderReview, hm, hd]

/-- C6, witness: concrete Blind and Source-Grounded renders. -/
theorem C6_review_render_witness :
    renderReview { { cexReviewState with verification_mode := "Blind" } with
        research_data := some ⟨"http://a", "Y is true."⟩ } =
      some (DisplayPayload.blind cexReviewState.ai_summary
        "Blind Mode: No source evidence shown.") ∧
    renderReview cexReviewState =
      some (DisplayPayload.sourceGrounded cexReviewState.ai_summary
        ("Source URL: " ++ "http://a") "Y is true.") :=
  ⟨C6_review_render.1 { cexReviewState with verification_mode := "Blind" }
      (some ⟨"http://a", "Y is true."⟩) rfl,
   C6_review_render.2 cexReviewState ⟨"http://a", "Y is true."⟩ (by decide) rfl⟩

/-- C7, counterexample: with a non-empty search result and a summarization
collaborator that succeeds with empty content, the run does reach the review
step but leaves ai_summary empty, refuting the non-empty-summary part of the
claim. -/
theorem C7_counterexample :
    (startAgent defaults "X" oneResult emptySummary).1.step = Step.review ∧
    (startAgent defaults "X" oneResult emptySummary).1.ai_summary = "" := by
  decide

/-- C7, amended: with a non-empty topic, a non-empty search result set and a
successful summarization, the run transitions Input to Review, stores the top
result in researchData, and sets aiSummary to exactly the collaborator
content, which is therefore non-empty whenever that content is non-empty. -/
theorem C7_amended (s : SessionState) (t : String)
    (search : String → List ResearchData) (invoke : String → Except String String)
    (r : ResearchData) (rest : List ResearchData) (c : String)
    (ht : t ≠ "") (hs : search t = r :: rest)
    (hi : invoke (mkPrompt r.content) = Except.ok c) :
    (startAgent s t search invoke).1.step = Step.review ∧
    (startAgent s t search invoke).1.research_data = some r ∧
    (startAgent s t search invoke).1.ai_summary = c ∧
    (c ≠ "" → (startAgent s t search invoke).1.ai_summary ≠ "") := by
  simp [startAgent, ht, hs, hi]

/-- C7, witness for the amended theorem: concrete successful run. -/
theorem C7_amended_witness :
    (startAgent defaults "X" oneResult okSummary).1.step = Step.review ∧
    (startAgent defaults "X" oneResult okSummary).1.research_data =
      some ⟨"http://a", "Y is true."⟩ ∧
    (startAgent defaults "X" oneResult okSummary).1.ai_summary = "Y is true." ∧
    ("Y is true." ≠ "" → (startAgent defaults "X" oneResult okSummary).1.ai_summary ≠ "") :=
  C7_amended defaults "X" oneResult okSummary ⟨"http://a", "Y is true."⟩ [] "Y is true."
    (by decide) rfl rfl

/-- C8: pressing Start Agent with an empty topic leaves the whole session
state unchanged (hence still on the Input step) and emits the warning. -/
theorem C8_empty_topic (s : SessionState)
    (search : String → List ResearchData) (invoke : String → Except String String) :
    startAgent s "" search invoke = (s, StartOutcome.warning "Please enter a topic.") := by
  simp [startAgent]

/-- C9: if either required API key is absent (or empty), startup halts with
the diagnostic and never produces a session state, so no workflow step
executes. -/
theorem C9_missing_keys (groqKey tavilyKey : Option String)
    (h : falsy groqKey = true ∨ falsy tavilyKey = true) :
    startup groqKey tavilyKey = Except.error keysMissingMsg ∧
    ∀ s, startup groqKey tavilyKey ≠ Except.ok s := by
  have he : startup groqKey tavilyKey = Except.error keysMissingMsg := by
    rcases h with h | h <;> simp [startup, h]
  refine ⟨he, fun s hc => ?_⟩
  rw [he] at hc
  cases hc

/-- C9, witness: startup with a missing search key halts with the diagnostic. -/
theorem C9_missing_keys_witness :
    startup none (some "k") = Except.error keysMissingMsg :=
  (C9_missing_keys none (some "k") (Or.inl rfl)).1

/-- C10: the two merge-conflict variants of the verified step are not
equivalent: the HEAD variant appends a six-column CSV row whose last column
is verification_mode and whose JSON payload carries a verification_mode key,
while the alternate variant leaves the CSV log untouched and displays a JSON
payload without a verification_mode key; at a concrete verified state the two
renders differ. -/
theorem C10_variants_differ :
    (∀ (ts : String) (s : SessionState) (log : List (List String)) (rd : ResearchData),
      s.research_data = some rd →
      renderVerifiedHead ts s log = some (log ++ [headCsvRow ts s rd], headJson s rd) ∧
      (headCsvRow ts s rd).length = 6 ∧
      (headCsvRow ts s rd).getLast? = some s.verification_mode ∧
      (headJson s rd).map Prod.fst =
        ["topic", "agent_claim", "source_url", "human_verdict", "verification_mode"]) ∧
    (∀ (s : SessionState) (log : List (List String)) (rd : ResearchData),
      s.research_data = some rd →
      renderVerifiedAlt s log = some (log, altJson s rd) ∧
      "verification_mode" ∉ (altJson s rd).map Prod.fst) ∧
    renderVerifiedHead "t1" cexVerifiedState [] ≠ renderVerifiedAlt cexVerifiedState [] := by
  refine ⟨?_, ?_, by decide⟩
  · intro ts s log rd h
    refine ⟨?_, rfl, rfl, rfl⟩
    simp [renderVerifiedHead, h]
  · intro s log rd h
    constructor
    · simp [renderVerifiedAlt, h]
    · show "verification_mode" ∉ ["topic", "agent_claim", "source_url", "human_verdict"]
      decide

/-- C10, witness: concrete renders of both variants at a verified state. -/
theorem C10_variants_differ_witness :
    renderVerifiedHead "t1" cexVerifiedState [] =
      some (([] : List (List String)) ++
          [headCsvRow "t1" cexVerifiedState ⟨"http://a", "Y is true."⟩],
        headJson cexVerifiedState ⟨"http://a", "Y is true."⟩) ∧
    renderVerifiedAlt cexVerifiedState [] =
      some (([] : List (List String)), altJson cexVerifiedState ⟨"http://a", "Y is true."⟩) :=
  ⟨(C10_variants_differ.1 "t1" cexVerifiedState [] ⟨"http://a", "Y is true."⟩ rfl).1,
   (C10_variants_differ.2.1 cexVerifiedState [] ⟨"http://a", "Y is true."⟩ rfl).1⟩

end HITL
